import Mathlib

/-!
Verification of `src/freeapi.py`: a single fetch function performing one GET
request, JSON envelope validation and extraction of two fields, plus a `main`
entry point that maps each failure kind to one printed message.

The Python code is shallowly embedded: JSON values are an inductive type,
Python exceptions an inductive taxonomy, and the two functions are translated
statement by statement, with each possibly-raising subexpression returning
`Except PyExn`.
-/

namespace FreeApi

/-- Parsed JSON values, as produced by `response.json()` (i.e. `json.loads`):
objects keep insertion order and carry string keys only. Numbers are modelled
as integers (no claim involves fractional values). -/
inductive Json where
  | null
  | bool (b : Bool)
  | num (n : Int)
  | str (s : String)
  | arr (elems : List Json)
  | obj (fields : List (String × Json))

/-- Python exceptions that the script can raise, with the structure `main`'s
`except` clauses discriminate on. `requestException` covers the
connection-level errors raised by `requests.get` (ConnectionError, Timeout,
...); `httpError` is the `requests.exceptions.HTTPError` raised by
`raise_for_status` (also a RequestException subclass). `keyErrorIndex` is a
`KeyError` whose key is an integer (from `d[0]` on a dict). -/
inductive PyExn where
  | keyError (key : String)
  | keyErrorIndex (i : Int)
  | indexError (msg : String)
  | typeError (msg : String)
  | requestException (msg : String)
  | httpError (status : Nat) (reason : String)
  | jsonDecodeError (msg : String)
  | genericException (msg : String)
  deriving DecidableEq

/-- The fixed URL from `fetch_data_from_api`. -/
def url : String := "https://api.freeapi.app/api/v1/public/randomusers"

/-- Python truthiness (`bool(x)`) on JSON values: None, False, 0, "", [] and
\x7b\x7d are falsy, everything else truthy. -/
def Json.truthy : Json → Bool
  | .null => false
  | .bool b => b
  | .num n => n != 0
  | .str s => s != ""
  | .arr elems => !elems.isEmpty
  | .obj fields => !fields.isEmpty

/-- Substring test, Python's `needle in haystack` on strings. -/
def strContains (needle hay : String) : Bool :=
  needle.isEmpty || (hay.splitOn needle).length != 1

/-- Python subscription `x[k]` with a string key `k`: dict lookup (KeyError on
a missing key), TypeError on every non-dict. -/
def Json.getItem : Json → String → Except PyExn Json
  | .obj fields, k =>
    match fields.find? (fun p => p.1 == k) with
    | some p => .ok p.2
    | none => .error (.keyError k)
  | .arr _, _ => .error (.typeError "list indices must be integers or slices, not str")
  | .str _, _ => .error (.typeError "string indices must be integers")
  | .num _, _ => .error (.typeError "'int' object is not subscriptable")
  | .bool _, _ => .error (.typeError "'bool' object is not subscriptable")
  | .null, _ => .error (.typeError "'NoneType' object is not subscriptable")

/-- Python subscription `x[i]` with a non-negative integer `i`: list indexing
(IndexError when out of range), string indexing (one-character string), dict
lookup of the integer key (always KeyError here since JSON object keys are
strings), TypeError otherwise. -/
def Json.getIndex : Json → Nat → Except PyExn Json
  | .arr elems, i =>
    match elems.get? i with
    | some v => .ok v
    | none => .error (.indexError "list index out of range")
  | .str s, i =>
    match s.data.get? i with
    | some c => .ok (.str (String.mk [c]))
    | none => .error (.indexError "string index out of range")
  | .obj _, i => .error (.keyErrorIndex i)
  | .num _, _ => .error (.typeError "'int' object is not subscriptable")
  | .bool _, _ => .error (.typeError "'bool' object is not subscriptable")
  | .null, _ => .error (.typeError "'NoneType' object is not subscriptable")

/-- Python `==` between a JSON value and a string: only an equal string
compares equal. -/
def Json.eqStr : Json → String → Bool
  | .str s, k => s == k
  | _, _ => false

/-- Python membership `k in x` for a string `k`: key test on dicts, element
test on lists (only a string element can equal `k`), substring test on
strings, TypeError on non-containers. -/
def Json.containsKey : Json → String → Except PyExn Bool
  | .obj fields, k => .ok (fields.any (fun p => p.1 == k))
  | .arr elems, k => .ok (elems.any (fun v => v.eqStr k))
  | .str s, k => .ok (strContains k s)
  | .num _, _ => .error (.typeError "argument of type 'int' is not iterable")
  | .bool _, _ => .error (.typeError "argument of type 'bool' is not iterable")
  | .null, _ => .error (.typeError "argument of type 'NoneType' is not iterable")

mutual

/-- Python `repr` of a JSON value (what `str` delegates to for containers). -/
def Json.pyRepr : Json → String
  | .null => "None"
  | .bool b => if b then "True" else "False"
  | .num n => toString n
  | .str s => "'" ++ s ++ "'"
  | .arr elems => "[" ++ Json.pyReprList elems ++ "]"
  | .obj fields => "\x7b" ++ Json.pyReprFields fields ++ "\x7d"

/-- Comma-separated reprs of list elements. -/
def Json.pyReprList : List Json → String
  | [] => ""
  | [v] => Json.pyRepr v
  | v :: rest => Json.pyRepr v ++ ", " ++ Json.pyReprList rest

/-- Comma-separated reprs of dict entries. -/
def Json.pyReprFields : List (String × Json) → String
  | [] => ""
  | [(k, v)] => "'" ++ k ++ "': " ++ Json.pyRepr v
  | (k, v) :: rest => "'" ++ k ++ "': " ++ Json.pyRepr v ++ ", " ++ Json.pyReprFields rest

end

/-- Python `str` of a JSON value, as interpolated by an f-string: a string
value prints bare, everything else prints as its repr. -/
def Json.pyStr : Json → String
  | .str s => s
  | v => v.pyRepr

/-- Python `str(e)` for each exception, as interpolated by the f-strings in
`main`. `str` of a KeyError is the repr of its key. The HTTPError message is
the one `raise_for_status` builds. -/
def PyExn.pyStr : PyExn → String
  | .keyError k => "'" ++ k ++ "'"
  | .keyErrorIndex i => toString i
  | .indexError msg => msg
  | .typeError msg => msg
  | .requestException msg => msg
  | .httpError status reason =>
    (if status < 500 then toString status ++ " Client Error: "
     else toString status ++ " Server Error: ") ++ reason ++ " for url: " ++ url
  | .jsonDecodeError msg => msg
  | .genericException msg => msg

/-- Does the exception match `except requests.RequestException`? HTTPError
subclasses RequestException; KeyError, IndexError, TypeError and the JSON
decode error (as the reference behavior in the spec classifies it, see
`HttpResponse.body`) do not. -/
def PyExn.isRequestException : PyExn → Bool
  | .requestException _ => true
  | .httpError _ _ => true
  | _ => false

/-- Does the exception match `except KeyError`? -/
def PyExn.isKeyError : PyExn → Bool
  | .keyError _ => true
  | .keyErrorIndex _ => true
  | _ => false

/-- Does the exception match `except Exception`? Every exception in the
taxonomy derives from `Exception` in Python, so each constructor matches. -/
def PyExn.isException : PyExn → Bool
  | .keyError _ => true
  | .keyErrorIndex _ => true
  | .indexError _ => true
  | .typeError _ => true
  | .requestException _ => true
  | .httpError _ _ => true
  | .jsonDecodeError _ => true
  | .genericException _ => true

/-- An HTTP response as seen by the script: status code, reason phrase, and
the outcome of `response.json()`. `body = .error msg` models a body that is
not valid JSON, where `msg` is the decode error's message. Modelled from the
spec: the spec states that in the reference behavior a JSON-parse failure
"propagates as an unexpected-error path rather than a distinct parse-error
kind", so the decode error is a kind of its own, not a RequestException (the
requests library, which is not part of this repository, decides this; the
spec's classification matches requests before 2.27). -/
structure HttpResponse where
  status : Nat
  reason : String
  body : Except String Json

/-- The outcome of `requests.get(url)`: either a connection-level
RequestException (connection failure, DNS failure, timeout) carrying its
message, or a response. -/
inductive FetchOutcome where
  | transportFailure (cause : String)
  | response (r : HttpResponse)

/-- `Response.raise_for_status` of the requests library (not part of this
repository): raises HTTPError exactly for status codes 400–599, with a
"Client Error" message for 4xx and a "Server Error" message for 5xx. -/
def raise_for_status (r : HttpResponse) : Except PyExn Unit :=
  if 400 ≤ r.status ∧ r.status < 600 then .error (.httpError r.status r.reason)
  else .ok ()

/-- The condition `data["success"] and "data" in data and "data" in
data["data"]`, with Python's left-to-right short-circuit evaluation and
exception propagation. -/
def envelopeCheck (data : Json) : Except PyExn Bool :=
  match data.getItem "success" with
  | .error e => .error e
  | .ok s =>
    if s.truthy then
      match data.containsKey "data" with
      | .error e => .error e
      | .ok false => .ok false
      | .ok true =>
        match data.getItem "data" with
        | .error e => .error e
        | .ok d => d.containsKey "data"
    else
      .ok false

/-- The extraction statements of `fetch_data_from_api`:
`user_data = data["data"]["data"][0]`, `username = user_data["login"]
["username"]`, `location = user_data["location"]["city"]`,
`return username, location`, with Python's exception propagation. -/
def extractFields (data : Json) : Except PyExn (Json × Json) :=
  match data.getItem "data" with
  | .error e => .error e
  | .ok d1 =>
    match d1.getItem "data" with
    | .error e => .error e
    | .ok d2 =>
      match d2.getIndex 0 with
      | .error e => .error e
      | .ok user_data =>
        match user_data.getItem "login" with
        | .error e => .error e
        | .ok lg =>
          match lg.getItem "username" with
          | .error e => .error e
          | .ok username =>
            match user_data.getItem "location" with
            | .error e => .error e
            | .ok loc =>
              match loc.getItem "city" with
              | .error e => .error e
              | .ok city => .ok (username, city)

/-- `fetch_data_from_api` from `src/freeapi.py`, as a function of the outcome
of its one network call: `requests.get`, `raise_for_status`, `response.json()`,
the envelope check, then the extraction sequence, returning the pair or
propagating the first exception. -/
def fetch_data_from_api (o : FetchOutcome) : Except PyExn (Json × Json) :=
  match o with
  | .transportFailure cause => .error (.requestException cause)
  | .response r =>
    match raise_for_status r with
    | .error e => .error e
    | .ok _ =>
      match r.body with
      | .error msg => .error (.jsonDecodeError msg)
      | .ok data =>
        match envelopeCheck data with
        | .error e => .error e
        | .ok false => .error (.genericException "API request failed or returned invalid data")
        | .ok true => extractFields data

/-- `main` from `src/freeapi.py`: calls `fetch_data_from_api` once inside
`try`, prints the success line or maps the exception through the `except`
clauses in order (RequestException, KeyError, Exception). The result is the
list of printed lines; `.error` would mean an exception escaped `main`. -/
def main (o : FetchOutcome) : Except PyExn (List String) :=
  match fetch_data_from_api o with
  | .ok (username, city) =>
    .ok ["Username: " ++ username.pyStr ++ ", City: " ++ city.pyStr]
  | .error e =>
    if e.isRequestException then .ok ["Network error occurred: " ++ e.pyStr]
    else if e.isKeyError then .ok ["Error parsing API response: " ++ e.pyStr]
    else if e.isException then .ok ["An unexpected error occurred: " ++ e.pyStr]
    else .error e

/-- The canned response body of the spec's end-to-end example. -/
def cannedJson : Json :=
  .obj [("success", .bool true),
        ("data", .obj [("data", .arr [
           .obj [("login", .obj [("username", .str "jdoe")]),
                 ("location", .obj [("city", .str "Paris")])]])])]

/-- A successful lookup of key `k` implies the membership test `k in x`
answers true: `getItem` only succeeds on a dict holding the key. -/
theorem getItem_ok_containsKey {j : Json} {k : String} {v : Json}
    (h : j.getItem k = .ok v) : j.containsKey k = .ok true := by
  cases j with
  | obj fields =>
    simp only [Json.getItem] at h
    cases hf : fields.find? (fun p => p.1 == k) with
    | none => rw [hf] at h; exact Except.noConfusion h
    | some p =>
      rw [hf] at h
      have hmem := List.mem_of_find?_eq_some hf
      have hpk := List.find?_some hf
      simp only [Json.containsKey, Except.ok.injEq]
      rw [List.any_eq_true]
      exact ⟨p, hmem, hpk⟩
  | null => exact Except.noConfusion h
  | bool b => exact Except.noConfusion h
  | num n => exact Except.noConfusion h
  | str s => exact Except.noConfusion h
  | arr elems => exact Except.noConfusion h

/-- Inversion of a successful extraction: the returned pair is exactly the
`login.username` and `location.city` of the record at index 0 of
`data.data`. -/
theorem extractFields_ok {data u c : Json} (h : extractFields data = .ok (u, c)) :
    ∃ d1 d2 user_data lg loc,
      data.getItem "data" = .ok d1 ∧
      d1.getItem "data" = .ok d2 ∧
      d2.getIndex 0 = .ok user_data ∧
      user_data.getItem "login" = .ok lg ∧
      lg.getItem "username" = .ok u ∧
      user_data.getItem "location" = .ok loc ∧
      loc.getItem "city" = .ok c := by
  unfold extractFields at h
  repeat' split at h
  all_goals first
    | exact Except.noConfusion h
    | · obtain ⟨h1, h2⟩ := Prod.mk.injEq .. ▸ Except.ok.inj h
        subst h1; subst h2
        exact ⟨_, _, _, _, _, by assumption, by assumption, by assumption,
          by assumption, by assumption, by assumption, by assumption⟩

/-- C2: with the canned body delivered at a 2xx status, the program prints
exactly the single line `Username: jdoe, City: Paris`. -/
theorem C2_canned_response_prints_username_city :
    main (.response ⟨200, "OK", .ok cannedJson⟩) =
      .ok ["Username: jdoe, City: Paris"] := rfl

/-- C9: for every outcome of the single fetch call, `main` converts the
result into exactly one printed line and terminates normally: no exception
escapes (the result is never `.error`) and no distinct exit status exists in
the source (`main` falls through after printing on every path). -/
theorem C9_main_single_message_no_escape (o : FetchOutcome) :
    ∃ line, main o = .ok [line] := by
  unfold main
  cases fetch_data_from_api o with
  | ok p => obtain ⟨u, c⟩ := p; exact ⟨_, rfl⟩
  | error e => cases e <;> exact ⟨_, rfl⟩

/-- C8: for every possible outcome, `fetch_data_from_api` either signals a
failure or returns a pair whose two components are both read from the
response body — the `login.username` and `location.city` of the first record
of `data.data`; no execution returns a partially populated result. -/
theorem C8_no_partial_result (o : FetchOutcome) :
    (∃ e, fetch_data_from_api o = .error e) ∨
    (∃ u c, fetch_data_from_api o = .ok (u, c) ∧
      ∃ r data d1 d2 user_data lg loc,
        o = .response r ∧ r.body = .ok data ∧
        data.getItem "data" = .ok d1 ∧
        d1.getItem "data" = .ok d2 ∧
        d2.getIndex 0 = .ok user_data ∧
        user_data.getItem "login" = .ok lg ∧
        lg.getItem "username" = .ok u ∧
        user_data.getItem "location" = .ok loc ∧
        loc.getItem "city" = .ok c) := by
  cases hf : fetch_data_from_api o with
  | error e => exact .inl ⟨e, rfl⟩
  | ok p =>
    right
    obtain ⟨u, c⟩ := p
    refine ⟨u, c, rfl, ?_⟩
    cases o with
    | transportFailure cause => exact Except.noConfusion hf
    | response r =>
      unfold fetch_data_from_api at hf
      repeat' split at hf
      all_goals first
        | exact Except.noConfusion hf
        | (obtain ⟨d1, d2, user_data, lg, loc, h1, h2, h3, h4, h5, h6, h7⟩ :=
             extractFields_ok hf
           exact ⟨_, _, d1, d2, user_data, lg, loc, by assumption, by assumption,
             h1, h2, h3, h4, h5, h6, h7⟩)

/-- C1: for every response that reaches JSON parsing (no transport failure,
no error status) whose parsed body matches the expected envelope shape —
`success` truthy, `data.data` present and a non-empty sequence, first record
holding `login.username` and `location.city` — `fetch_data_from_api` returns
exactly that username and city, unchanged. -/
theorem C1_fetch_returns_first_record_fields
    (st : Nat) (reason : String) (data s d lg loc u c r0 : Json) (rest : List Json)
    (hst : ¬(400 ≤ st ∧ st < 600))
    (hs : data.getItem "success" = .ok s) (htr : s.truthy = true)
    (hd : data.getItem "data" = .ok d)
    (hdd : d.getItem "data" = .ok (.arr (r0 :: rest)))
    (hlg : r0.getItem "login" = .ok lg) (hu : lg.getItem "username" = .ok u)
    (hloc : r0.getItem "location" = .ok loc) (hc : loc.getItem "city" = .ok c) :
    fetch_data_from_api (.response ⟨st, reason, .ok data⟩) = .ok (u, c) := by
  have hcd : data.containsKey "data" = .ok true := getItem_ok_containsKey hd
  have hcdd : d.containsKey "data" = .ok true := getItem_ok_containsKey hdd
  have henv : envelopeCheck data = .ok true := by
    simp only [envelopeCheck, hs, htr, if_true, hcd, hd, hcdd]
  have hext : extractFields data = .ok (u, c) := by
    simp only [extractFields, hd, hdd, Json.getIndex, List.get?, hlg, hu, hloc, hc]
  simp only [fetch_data_from_api, raise_for_status, if_neg hst, henv, hext]

/-- C1 witness: the theorem applied to the canned 200 response. -/
theorem C1_witness :
    fetch_data_from_api (.response ⟨200, "OK", .ok cannedJson⟩) =
      .ok (.str "jdoe", .str "Paris") :=
  C1_fetch_returns_first_record_fields 200 "OK" cannedJson _ _ _ _ _ _ _ _
    (by decide) rfl rfl rfl rfl rfl rfl rfl rfl

/-- The body \x7b"success": true, "data": 5\x7d: the nested `data.data` key
is certainly absent, yet the membership test `"data" in data["data"]` raises
TypeError rather than reaching the LogicError branch. -/
def c3Body : Json := .obj [("success", .bool true), ("data", .num 5)]

/-- C3 counterexample: for the parsed response \x7b"success": true,
"data": 5\x7d the nested `data.data` key is absent and `success` is truthy,
but `fetch_data_from_api` fails with a TypeError from `"data" in
data["data"]` — not the generic Exception carrying "API request failed or
returned invalid data" — and `main` prints the unexpected-error line. -/
theorem C3_counterexample :
    fetch_data_from_api (.response ⟨200, "OK", .ok c3Body⟩) =
      .error (.typeError "argument of type 'int' is not iterable") ∧
    PyExn.typeError "argument of type 'int' is not iterable" ≠
      PyExn.genericException "API request failed or returned invalid data" ∧
    main (.response ⟨200, "OK", .ok c3Body⟩) =
      .ok ["An unexpected error occurred: argument of type 'int' is not iterable"] :=
  ⟨rfl, by decide, rfl⟩

/-- C3 (amended): for every parsed response in which `success` is falsy, or
in which `success` is truthy and either the top-level `data` key is absent or
the value under `data` supports the membership test and lacks the nested
`data` key, `fetch_data_from_api` fails with the generic Exception carrying
"API request failed or returned invalid data". (When `data` maps to a
non-container the membership test itself raises TypeError instead.) -/
theorem C3_logic_error_amended
    (st : Nat) (reason : String) (data s : Json)
    (hst : ¬(400 ≤ st ∧ st < 600))
    (hs : data.getItem "success" = .ok s)
    (hcase : s.truthy = false ∨
      (s.truthy = true ∧ (data.containsKey "data" = .ok false ∨
        ∃ d, data.getItem "data" = .ok d ∧ d.containsKey "data" = .ok false))) :
    fetch_data_from_api (.response ⟨st, reason, .ok data⟩) =
      .error (.genericException "API request failed or returned invalid data") := by
  have henv : envelopeCheck data = .ok false := by
    rcases hcase with hff | ⟨htr, hck | ⟨d, hd, hdd⟩⟩
    · simp only [envelopeCheck, hs, hff, Bool.false_eq_true, if_false]
    · simp only [envelopeCheck, hs, htr, if_true, hck]
    · have hcd : data.containsKey "data" = .ok true := getItem_ok_containsKey hd
      simp only [envelopeCheck, hs, htr, if_true, hcd, hd, hdd]
  simp only [fetch_data_from_api, raise_for_status, if_neg hst, henv]

/-- C3 witness: the amended theorem applied to the body
\x7b"success": false\x7d. -/
theorem C3_witness :
    fetch_data_from_api (.response ⟨200, "OK", .ok (.obj [("success", .bool false)])⟩) =
      .error (.genericException "API request failed or returned invalid data") :=
  C3_logic_error_amended 200 "OK" _ _ (by decide) rfl (.inl rfl)

/-- The body \x7b"success": true, "data": \x7b"data": []\x7d\x7d: a valid
envelope whose record list is empty. -/
def c4Body : Json := .obj [("success", .bool true), ("data", .obj [("data", .arr [])])]

/-- C4 counterexample: for a valid envelope with an empty `data.data`
sequence, `fetch_data_from_api` fails with IndexError, which `except
KeyError` does not match, so `main` prints "An unexpected error occurred:
list index out of range" — not a line beginning with "Error parsing API
response:". -/
theorem C4_counterexample :
    fetch_data_from_api (.response ⟨200, "OK", .ok c4Body⟩) =
      .error (.indexError "list index out of range") ∧
    (PyExn.indexError "list index out of range").isKeyError = false ∧
    main (.response ⟨200, "OK", .ok c4Body⟩) =
      .ok ["An unexpected error occurred: list index out of range"] :=
  ⟨rfl, rfl, rfl⟩

/-- C4 (amended): for every parsed response with a valid envelope whose
`data.data` sequence is empty, `fetch_data_from_api` fails with an IndexError
(the index-out-of-range condition); since IndexError is not a KeyError, the
caller prints "An unexpected error occurred: list index out of range" rather
than an "Error parsing API response:" line. -/
theorem C4_empty_sequence_amended
    (st : Nat) (reason : String) (data s d : Json)
    (hst : ¬(400 ≤ st ∧ st < 600))
    (hs : data.getItem "success" = .ok s) (htr : s.truthy = true)
    (hd : data.getItem "data" = .ok d)
    (hdd : d.getItem "data" = .ok (.arr [])) :
    fetch_data_from_api (.response ⟨st, reason, .ok data⟩) =
      .error (.indexError "list index out of range") ∧
    main (.response ⟨st, reason, .ok data⟩) =
      .ok ["An unexpected error occurred: list index out of range"] := by
  have hcd : data.containsKey "data" = .ok true := getItem_ok_containsKey hd
  have hcdd : d.containsKey "data" = .ok true := getItem_ok_containsKey hdd
  have henv : envelopeCheck data = .ok true := by
    simp only [envelopeCheck, hs, htr, if_true, hcd, hd, hcdd]
  have hext : extractFields data = .error (.indexError "list index out of range") := by
    simp only [extractFields, hd, hdd, Json.getIndex, List.get?]
  have hfetch : fetch_data_from_api (.response ⟨st, reason, .ok data⟩) =
      .error (.indexError "list index out of range") := by
    simp only [fetch_data_from_api, raise_for_status, if_neg hst, henv, hext]
  exact ⟨hfetch, by simp only [main, hfetch]; rfl⟩

/-- C4 witness: the amended theorem applied to the empty-sequence body. -/
theorem C4_witness :
    fetch_data_from_api (.response ⟨200, "OK", .ok c4Body⟩) =
      .error (.indexError "list index out of range") ∧
    main (.response ⟨200, "OK", .ok c4Body⟩) =
      .ok ["An unexpected error occurred: list index out of range"] :=
  C4_empty_sequence_amended 200 "OK" _ _ _ (by decide) rfl rfl rfl rfl

/-- C5: for every parsed response with a valid envelope and a non-empty
record list whose first record (a mapping) lacks `login` entirely, or whose
`login` mapping lacks `username`, `fetch_data_from_api` fails with a KeyError
naming the missing key and `main` prints "Error parsing API response: '<key>'"
identifying that key. -/
theorem C5_missing_login_keyerror
    (st : Nat) (reason : String) (data s d r0 : Json) (rest : List Json) (k : String)
    (hst : ¬(400 ≤ st ∧ st < 600))
    (hs : data.getItem "success" = .ok s) (htr : s.truthy = true)
    (hd : data.getItem "data" = .ok d)
    (hdd : d.getItem "data" = .ok (.arr (r0 :: rest)))
    (hcase : (k = "login" ∧ r0.getItem "login" = .error (.keyError "login")) ∨
      (k = "username" ∧ ∃ lg, r0.getItem "login" = .ok lg ∧
        lg.getItem "username" = .error (.keyError "username"))) :
    fetch_data_from_api (.response ⟨st, reason, .ok data⟩) = .error (.keyError k) ∧
    main (.response ⟨st, reason, .ok data⟩) =
      .ok ["Error parsing API response: '" ++ k ++ "'"] := by
  have hcd : data.containsKey "data" = .ok true := getItem_ok_containsKey hd
  have hcdd : d.containsKey "data" = .ok true := getItem_ok_containsKey hdd
  have henv : envelopeCheck data = .ok true := by
    simp only [envelopeCheck, hs, htr, if_true, hcd, hd, hcdd]
  have hext : extractFields data = .error (.keyError k) := by
    rcases hcase with ⟨hk, hlg⟩ | ⟨hk, lg, hlg, hu⟩
    · subst hk
      simp only [extractFields, hd, hdd, Json.getIndex, List.get?, hlg]
    · subst hk
      simp only [extractFields, hd, hdd, Json.getIndex, List.get?, hlg, hu]
  have hfetch : fetch_data_from_api (.response ⟨st, reason, .ok data⟩) =
      .error (.keyError k) := by
    simp only [fetch_data_from_api, raise_for_status, if_neg hst, henv, hext]
  refine ⟨hfetch, ?_⟩
  simp only [main, hfetch, PyExn.isRequestException, PyExn.isKeyError,
    Bool.false_eq_true, if_false, if_true, PyExn.pyStr]
  rfl

/-- C5 witness: the theorem applied to a record lacking `login`. -/
theorem C5_witness :
    fetch_data_from_api (.response ⟨200, "OK",
      .ok (.obj [("success", .bool true),
                 ("data", .obj [("data", .arr [.obj []])])])⟩) =
      .error (.keyError "login") ∧
    main (.response ⟨200, "OK",
      .ok (.obj [("success", .bool true),
                 ("data", .obj [("data", .arr [.obj []])])])⟩) =
      .ok ["Error parsing API response: 'login'"] :=
  C5_missing_login_keyerror 200 "OK" _ _ _ _ _ _
    (by decide) rfl rfl rfl rfl (.inl ⟨rfl, rfl⟩)

/-- C6 counterexample: a 304 response is not 2xx, yet `raise_for_status`
only raises for 4xx/5xx, so with the canned body at status 304
`fetch_data_from_api` succeeds — it does not fail with any network error —
and the program prints the success line. -/
theorem C6_counterexample :
    ¬(200 ≤ 304 ∧ 304 < 300) ∧
    fetch_data_from_api (.response ⟨304, "Not Modified", .ok cannedJson⟩) =
      .ok (.str "jdoe", .str "Paris") ∧
    main (.response ⟨304, "Not Modified", .ok cannedJson⟩) =
      .ok ["Username: jdoe, City: Paris"] :=
  ⟨by decide, rfl, rfl⟩

/-- C6 (amended): for every transport-level failure, and for every response
with a 4xx or 5xx status (rather than every non-2xx status: 3xx passes
`raise_for_status`), `fetch_data_from_api` fails with an exception matching
`requests.RequestException` that carries the underlying cause, and the
program prints a line beginning with "Network error occurred:". -/
theorem C6_network_error_amended (cause : String) (r : HttpResponse)
    (h4 : 400 ≤ r.status) (h6 : r.status < 600) :
    (fetch_data_from_api (.transportFailure cause) = .error (.requestException cause) ∧
     (PyExn.requestException cause).isRequestException = true ∧
     main (.transportFailure cause) = .ok ["Network error occurred: " ++ cause]) ∧
    (fetch_data_from_api (.response r) = .error (.httpError r.status r.reason) ∧
     (PyExn.httpError r.status r.reason).isRequestException = true ∧
     main (.response r) =
       .ok ["Network error occurred: " ++ (PyExn.httpError r.status r.reason).pyStr]) := by
  have hfetch : fetch_data_from_api (.response r) = .error (.httpError r.status r.reason) := by
    simp only [fetch_data_from_api, raise_for_status, if_pos (And.intro h4 h6)]
  refine ⟨⟨rfl, rfl, rfl⟩, hfetch, rfl, ?_⟩
  simp only [main, hfetch, PyExn.isRequestException, if_true]

/-- C6 witness: the amended theorem at a connection refusal and a 404. -/
theorem C6_witness :
    (fetch_data_from_api (.transportFailure "Connection refused") =
       .error (.requestException "Connection refused") ∧
     (PyExn.requestException "Connection refused").isRequestException = true ∧
     main (.transportFailure "Connection refused") =
       .ok ["Network error occurred: Connection refused"]) ∧
    (fetch_data_from_api (.response ⟨404, "Not Found", .ok Json.null⟩) =
       .error (.httpError 404 "Not Found") ∧
     (PyExn.httpError 404 "Not Found").isRequestException = true ∧
     main (.response ⟨404, "Not Found", .ok Json.null⟩) =
       .ok ["Network error occurred: " ++ (PyExn.httpError 404 "Not Found").pyStr]) :=
  C6_network_error_amended "Connection refused" ⟨404, "Not Found", .ok Json.null⟩
    (by decide) (by decide)

/-- C7: for every 2xx response whose body is not valid JSON, the JSON decode
error propagates along the unexpected-error path — it matches neither
`except requests.RequestException` nor `except KeyError` — so `main` prints
a line beginning with "An unexpected error occurred:". -/
theorem C7_invalid_json_unexpected_path (st : Nat) (reason msg : String)
    (h2 : 200 ≤ st) (h3 : st < 300) :
    fetch_data_from_api (.response ⟨st, reason, .error msg⟩) =
      .error (.jsonDecodeError msg) ∧
    (PyExn.jsonDecodeError msg).isRequestException = false ∧
    (PyExn.jsonDecodeError msg).isKeyError = false ∧
    main (.response ⟨st, reason, .error msg⟩) =
      .ok ["An unexpected error occurred: " ++ msg] := by
  have hst : ¬(400 ≤ st ∧ st < 600) := by omega
  have hfetch : fetch_data_from_api (.response ⟨st, reason, .error msg⟩) =
      .error (.jsonDecodeError msg) := by
    simp only [fetch_data_from_api, raise_for_status, if_neg hst]
  refine ⟨hfetch, rfl, rfl, ?_⟩
  simp only [main, hfetch, PyExn.isRequestException, PyExn.isKeyError,
    PyExn.isException, Bool.false_eq_true, if_false, if_true, PyExn.pyStr]

/-- C7 witness: the theorem at a 200 response with an unparseable body. -/
theorem C7_witness :
    fetch_data_from_api (.response ⟨200, "OK",
      .error "Expecting value: line 1 column 1 (char 0)"⟩) =
      .error (.jsonDecodeError "Expecting value: line 1 column 1 (char 0)") ∧
    (PyExn.jsonDecodeError "Expecting value: line 1 column 1 (char 0)").isRequestException
      = false ∧
    (PyExn.jsonDecodeError "Expecting value: line 1 column 1 (char 0)").isKeyError = false ∧
    main (.response ⟨200, "OK", .error "Expecting value: line 1 column 1 (char 0)"⟩) =
      .ok ["An unexpected error occurred: Expecting value: line 1 column 1 (char 0)"] :=
  C7_invalid_json_unexpected_path 200 "OK" "Expecting value: line 1 column 1 (char 0)"
    (by decide) (by decide)

/-- C10: for every parsed body that is an object without a top-level
`success` key, the very first lookup `data["success"]` raises
KeyError('success') before any envelope validation, so `main` classifies it
under `except KeyError` and prints "Error parsing API response: 'success'" —
not the LogicError message. -/
theorem C10_missing_success_keyerror (st : Nat) (reason : String)
    (fields : List (String × Json))
    (hst : ¬(400 ≤ st ∧ st < 600))
    (hnone : fields.find? (fun p => p.1 == "success") = none) :
    fetch_data_from_api (.response ⟨st, reason, .ok (.obj fields)⟩) =
      .error (.keyError "success") ∧
    main (.response ⟨st, reason, .ok (.obj fields)⟩) =
      .ok ["Error parsing API response: 'success'"] := by
  have hs : (Json.obj fields).getItem "success" = .error (.keyError "success") := by
    simp only [Json.getItem, hnone]
  have henv : envelopeCheck (Json.obj fields) = .error (.keyError "success") := by
    simp only [envelopeCheck, hs]
  have hfetch : fetch_data_from_api (.response ⟨st, reason, .ok (.obj fields)⟩) =
      .error (.keyError "success") := by
    simp only [fetch_data_from_api, raise_for_status, if_neg hst, henv]
  refine ⟨hfetch, ?_⟩
  simp only [main, hfetch, PyExn.isRequestException, PyExn.isKeyError,
    Bool.false_eq_true, if_false, if_true, PyExn.pyStr]
  rfl

/-- C10 witness: the theorem at the empty object body. -/
theorem C10_witness :
    fetch_data_from_api (.response ⟨200, "OK", .ok (.obj [])⟩) =
      .error (.keyError "success") ∧
    main (.response ⟨200, "OK", .ok (.obj [])⟩) =
      .ok ["Error parsing API response: 'success'"] :=
  C10_missing_success_keyerror 200 "OK" [] (by decide) rfl

end FreeApi
